import Mathlib

/-!
# Keycloak-Django-Go: the Go service (`go_app/cmd/server/main.go`)

A shallow embedding of the OIDC login service: the three HTTP handlers registered in
`main` (`GET /`, `GET /login`, `GET /callback`), the discovery retry loop
`initOIDCWithRetry`, and the host-rewriting transport `issuerRewriteTransport`.

Conventions of the embedding.

* Go's `error` is `Option Err` (`none` is `nil`); a pointer result is an `Option`.
* `interface{}` values are `Option Value` (`none` is the nil interface).
* The libraries the service calls (session store, OAuth2 client, ID-token verifier,
  URL parser, provider discovery) are parameters: every handler is a function of the
  collaborators' answers, and returns the response together with the session and the
  list of calls it made.
* Go's `int` is the 64-bit two's-complement integer; `attempt++` wraps.
-/

namespace GoApp

/-! ## Values, errors, sessions -/

/-- A non-nil Go `error`; `msg` is what `Error()` returns and what `%v` prints. -/
structure Err where
  msg : String
deriving DecidableEq, Repr

/-- A non-nil `interface{}` value, as stored in a session or in the extra fields of a
token response. -/
inductive Value where
  | str (s : String)
  | int (n : Int)
  | bool (b : Bool)
deriving DecidableEq, Repr

/-- The two-result type assertion `v.(string)`: the string and `true` for a string value,
the zero value `""` and `false` for anything else, the nil interface included. -/
def asString : Option Value → String × Bool
  | some (Value.str s) => (s, true)
  | _ => ("", false)

/-- First value bound to `key` in an association list. -/
def lookupKey {α : Type} (key : String) : List (String × α) → Option α
  | [] => none
  | (k, v) :: rest => if k = key then some v else lookupKey key rest

/-- The values of a `sessions.Session`: a finite map from keys to values. -/
structure Session where
  values : List (String × Value)
deriving DecidableEq, Repr

/-- The method `session.Get(key)`: the stored value, or the nil interface. -/
def Session.Get (s : Session) (key : String) : Option Value :=
  lookupKey key s.values

/-- The method `session.Delete(key)`. -/
def Session.Delete (s : Session) (key : String) : Session :=
  ⟨s.values.filter (fun p => !decide (p.1 = key))⟩

/-- The method `session.Set(key, val)`. -/
def Session.Set (s : Session) (key : String) (val : Value) : Session :=
  ⟨(key, val) :: (s.Delete key).values⟩

/-! ## HTTP requests and responses of the handlers -/

/-- What a handler writes: `c.String(code, ...)` (with the headers the handler set itself
through `c.Header`) or `c.Redirect(code, location)`. -/
inductive Response where
  | String (code : Nat) (header : List (String × String)) (body : String)
  | Redirect (code : Nat) (location : String)
deriving DecidableEq, Repr

/-- Status code of a response. -/
def Response.status : Response → Nat
  | Response.String code _ _ => code
  | Response.Redirect code _ => code

/-- The query string of the incoming request, as decoded key/value pairs. -/
structure Context where
  query : List (String × String)
deriving DecidableEq, Repr

/-- The method `c.Query(key)`: the first value of the parameter, `""` when it is missing. -/
def Context.Query (c : Context) (key : String) : String :=
  match lookupKey key c.query with
  | some v => v
  | none => ""

/-- An `oauth2.Token`: the access token and the raw extra fields of the token response. -/
structure Token where
  AccessToken : String
  raw : List (String × Value)
deriving DecidableEq, Repr

/-- The method `tok.Extra(key)`. -/
def Token.Extra (t : Token) (key : String) : Option Value :=
  lookupKey key t.raw

/-- A verified `oidc.IDToken`. -/
structure IDToken where
  Issuer : String
  Subject : String
  payload : String
deriving DecidableEq, Repr

/-- The anonymous struct `claims` of the callback handler. -/
structure Claims where
  PreferredUsername : String
  Email : String
deriving DecidableEq, Repr

/-- The collaborators of one request: the OAuth2 client, the ID-token verifier, the claim
decoder and the session store. -/
structure Collaborators where
  /-- The call `oidcCfg.OAuth2.Exchange(ctx, code)`. -/
  Exchange : String → Except Err Token
  /-- The call `oidcCfg.Verifier.Verify(ctx, rawIDToken)`. -/
  Verify : String → Except Err IDToken
  /-- The call `idToken.Claims(&claims)`. -/
  Claims : IDToken → Except Err Claims
  /-- The call `session.Save()` on a session with these values. -/
  Save : Session → Option Err
  /-- The call `oidcCfg.OAuth2.AuthCodeURL(state)`. -/
  AuthCodeURL : String → String

/-- A call a handler makes to a collaborator. -/
inductive Effect where
  | exchange (code : String)
  | verify (rawIDToken : String)
  | claims (tok : IDToken)
  | save (s : Session)
deriving DecidableEq, Repr

/-- What one run of a handler leaves behind: the response, the session values in memory
when the handler returns, the session values the store holds (those of the last
successful `Save`, else those the request came with), and the collaborator calls in
order. -/
structure Outcome where
  response : Response
  session : Session
  stored : Session
  effects : List Effect
deriving DecidableEq, Repr

/-- Whether a token exchange was attempted. -/
def Effect.isExchange : Effect → Bool
  | Effect.exchange _ => true
  | _ => false

/-! ## The handlers registered in `main` -/

/-- The handler of `GET /` (main.go 145-154). -/
def handleIndex (session : Session) : Outcome :=
  let r := asString (session.Get "username")
  let username := r.1
  let ok := r.2
  if !ok || username = "" then
    ⟨Response.Redirect 302 "/login", session, session, []⟩
  else
    ⟨Response.String 200 [("Content-Type", "text/html; charset=utf-8")]
        ("Привет, " ++ username ++ ", это Go сервис"), session, session, []⟩

/-- The handler of `GET /login` (main.go 156-167). -/
def handleLogin (env : Collaborators) (stored : Session) : Outcome :=
  let state := "state"
  let session := stored.Set "state" (Value.str state)
  match env.Save session with
  | some _ =>
    ⟨Response.String 500 [] "failed to save session", session, stored, [Effect.save session]⟩
  | none =>
    ⟨Response.Redirect 302 (env.AuthCodeURL state), session, session, [Effect.save session]⟩

/-- The username chosen from the decoded claims (main.go 211-217). -/
def pickUsername (claims : Claims) : String :=
  let username := claims.PreferredUsername
  let username := if username = "" then claims.Email else username
  let username := if username = "" then "user" else username
  username

/-- The handler of `GET /callback` (main.go 169-227). -/
def handleCallback (env : Collaborators) (stored : Session) (c : Context) : Outcome :=
  let session := stored
  let stateExpected := (asString (session.Get "state")).1
  let state := c.Query "state"
  if state = "" ∨ state ≠ stateExpected then
    ⟨Response.String 400 [] "invalid state", session, stored, []⟩
  else
    let code := c.Query "code"
    if code = "" then
      ⟨Response.String 400 [] "missing code", session, stored, []⟩
    else
      match env.Exchange code with
      | Except.error err =>
        ⟨Response.String 500 [] ("token exchange failed: " ++ err.msg), session, stored,
          [Effect.exchange code]⟩
      | Except.ok oauth2Token =>
        match asString (oauth2Token.Extra "id_token") with
        | (_, false) =>
          ⟨Response.String 500 [] "no id_token in token response", session, stored,
            [Effect.exchange code]⟩
        | (rawIDToken, true) =>
          match env.Verify rawIDToken with
          | Except.error err =>
            ⟨Response.String 500 [] ("failed to verify id_token: " ++ err.msg), session, stored,
              [Effect.exchange code, Effect.verify rawIDToken]⟩
          | Except.ok idToken =>
            match env.Claims idToken with
            | Except.error err =>
              ⟨Response.String 500 [] ("failed to parse claims: " ++ err.msg), session, stored,
                [Effect.exchange code, Effect.verify rawIDToken, Effect.claims idToken]⟩
            | Except.ok claims =>
              let username := pickUsername claims
              let session := session.Delete "state"
              let session := session.Set "username" (Value.str username)
              match env.Save session with
              | some err =>
                ⟨Response.String 500 [] ("failed to save session: " ++ err.msg), session, stored,
                  [Effect.exchange code, Effect.verify rawIDToken, Effect.claims idToken,
                    Effect.save session]⟩
              | none =>
                ⟨Response.Redirect 302 "/", session, session,
                  [Effect.exchange code, Effect.verify rawIDToken, Effect.claims idToken,
                    Effect.save session]⟩

/-! ## The host-rewriting transport -/

/-- The fields of a `url.URL` that the service and its requests use. -/
structure URL where
  Scheme : String
  Host : String
  Path : String
  RawQuery : String
  Fragment : String
deriving DecidableEq, Repr

/-- Rendering of a URL of this shape, `scheme://host/path?query#fragment`. -/
def URL.render (u : URL) : String :=
  u.Scheme ++ "://" ++ u.Host ++ u.Path
    ++ (if u.RawQuery = "" then "" else "?" ++ u.RawQuery)
    ++ (if u.Fragment = "" then "" else "#" ++ u.Fragment)

/-- An outgoing `http.Request`; `URL` is a pointer and may be nil. -/
structure Request where
  Method : String
  URL : Option URL
  Host : String
  Header : List (String × List String)
  Body : List Nat
deriving DecidableEq, Repr

/-- An `http.Response`. -/
structure HTTPResponse where
  StatusCode : Nat
  Body : List Nat
deriving DecidableEq, Repr

/-- An `http.RoundTripper`. -/
abbrev RoundTripper := Request → Except Err HTTPResponse

/-- The struct `issuerRewriteTransport` (main.go 54-58). -/
structure issuerRewriteTransport where
  base : RoundTripper
  issuerHost : String
  internalHost : String

/-- The request that `RoundTrip` hands to the base transport (main.go 61-65): a clone with
the URL host and the `Host` field replaced when the guard holds, the request itself
otherwise. -/
def issuerRewriteTransport.outgoing (t : issuerRewriteTransport) (req : Request) : Request :=
  if t.internalHost ≠ "" ∧ req.URL ≠ none ∧ req.URL.map URL.Host = some t.issuerHost then
    let req := req
    { req with
      URL := req.URL.map (fun u => { u with Host := t.internalHost })
      Host := t.internalHost }
  else
    req

/-- The method `issuerRewriteTransport.RoundTrip` (main.go 60-67). -/
def issuerRewriteTransport.RoundTrip (t : issuerRewriteTransport) (req : Request) :
    Except Err HTTPResponse :=
  t.base (t.outgoing req)

/-! ## Provider discovery -/

/-- The struct `appConfig` (main.go 24-32). -/
structure appConfig where
  Port : String
  Issuer : String
  DiscoveryInternal : String
  ClientID : String
  ClientSecret : String
  RedirectURL : String
  SessionSecret : String
deriving DecidableEq, Repr

/-- The function `getenv` (main.go 46-51), over an environment given as a lookup function that
returns `""` for an unset variable. -/
def getenv (environ : String → String) (key def_ : String) : String :=
  let v := environ key
  if v ≠ "" then v else def_

/-- The function `loadConfig` (main.go 34-44). -/
def loadConfig (environ : String → String) : appConfig :=
  { Port := getenv environ "APP_PORT" "8212"
    Issuer := getenv environ "OIDC_ISSUER" ""
    DiscoveryInternal := getenv environ "OIDC_DISCOVERY_INTERNAL" ""
    ClientID := getenv environ "OIDC_CLIENT_ID" ""
    ClientSecret := getenv environ "OIDC_CLIENT_SECRET" ""
    RedirectURL := getenv environ "OIDC_REDIRECT_URL" "http://localhost:8212/callback"
    SessionSecret := getenv environ "SESSION_SECRET" "change_me_session" }

/-- An `oauth2.Endpoint`. -/
structure Endpoint where
  AuthURL : String
  TokenURL : String
deriving DecidableEq, Repr

/-- A discovered `oidc.Provider`. -/
structure Provider where
  issuer : String
  endpoint : Endpoint
  jwksURL : String
deriving DecidableEq, Repr

/-- An `oidc.IDTokenVerifier`, as `provider.Verifier(&oidc.Config{ClientID: id})` builds
it. -/
structure IDTokenVerifier where
  issuer : String
  jwksURL : String
  ClientID : String
deriving DecidableEq, Repr

/-- An `oauth2.Config`. -/
structure OAuth2Config where
  ClientID : String
  ClientSecret : String
  Endpoint : Endpoint
  RedirectURL : String
  Scopes : List String
deriving DecidableEq, Repr

/-- The struct `oidcConfig` (main.go 18-22). -/
structure oidcConfig where
  Provider : Provider
  Verifier : IDTokenVerifier
  OAuth2 : OAuth2Config
deriving DecidableEq, Repr

/-- The call `oidc.NewProvider(ctx, issuer)`, once: the HTTP client carried by `ctx` (none
for the default client) and the issuer give a provider or an error. -/
abbrev Discovery := Option issuerRewriteTransport → String → Except Err Provider

/-- The HTTP client that `initOIDC` puts into the context (main.go 70-87): none when no
internal discovery URL is configured, else the rewriting transport built from the hosts of
the two parsed URLs; a parse error is returned as is. -/
def discoveryClient (urlParse : String → Except Err URL) (DefaultTransport : RoundTripper)
    (cfg : appConfig) : Except Err (Option issuerRewriteTransport) :=
  if cfg.DiscoveryInternal ≠ "" then
    match urlParse cfg.Issuer with
    | Except.error err => Except.error err
    | Except.ok issuerURL =>
      match urlParse cfg.DiscoveryInternal with
      | Except.error err => Except.error err
      | Except.ok internalURL =>
        Except.ok (some
          { base := DefaultTransport
            issuerHost := issuerURL.Host
            internalHost := internalURL.Host })
  else
    Except.ok none

/-- The function `initOIDC` (main.go 69-109); the result is the Go pair `(*oidcConfig, error)`. -/
def initOIDC (urlParse : String → Except Err URL) (DefaultTransport : RoundTripper)
    (NewProvider : Discovery) (cfg : appConfig) : Option oidcConfig × Option Err :=
  match discoveryClient urlParse DefaultTransport cfg with
  | Except.error err => (none, some err)
  | Except.ok client =>
    match NewProvider client cfg.Issuer with
    | Except.error err => (none, some err)
    | Except.ok provider =>
      let oidcCfg : oidcConfig :=
        { Provider := provider
          OAuth2 :=
            { ClientID := cfg.ClientID
              ClientSecret := cfg.ClientSecret
              Endpoint := provider.endpoint
              RedirectURL := cfg.RedirectURL
              Scopes := ["openid", "profile", "email"] }
          Verifier :=
            { issuer := provider.issuer
              jwksURL := provider.jwksURL
              ClientID := cfg.ClientID } }
      (some oidcCfg, none)

/-! ## The retry loop -/

/-- Largest value of Go's `int` (64 bits). -/
def maxInt : Int := 9223372036854775807

/-- Two's-complement wrap of an integer into the range of `int`. -/
def wrapInt (x : Int) : Int :=
  (x + 9223372036854775808) % 18446744073709551616 - 9223372036854775808

/-- What the retry loop does, in order: the `call`-th call of `initOIDC` (counted from 0),
a `log.Printf` with its four arguments, a `time.Sleep`. -/
inductive RetryEvent where
  | initOIDC (call : Nat)
  | log (attempt maxAttempts : Int) (err : Err) (interval : Int)
  | sleep (d : Int)
deriving DecidableEq, Repr

/-- The Go pair `(*oidcConfig, error)` that `initOIDCWithRetry` returns, with the events
of the run. -/
structure RetryOutcome where
  cfg : Option oidcConfig
  err : Option Err
  trace : List RetryEvent
deriving DecidableEq, Repr

/-- Put events in front of the trace of an outcome. -/
def RetryOutcome.after (evs : List RetryEvent) (o : RetryOutcome) : RetryOutcome :=
  { o with trace := evs ++ o.trace }

/-- The `for` loop of `initOIDCWithRetry` (main.go 113-123) from the loop test on, with
the loop variable `attempt`, the variable `lastErr` and the number `calls` of calls of
`initOIDC` made so far. `initCall k` is the result of the `k`-th call of `initOIDC`.
`fuel` bounds the number of iterations; `none` means the bound was reached before the
function returned. -/
def retryLoop (initCall : Nat → Option oidcConfig × Option Err) (maxAttempts interval : Int) :
    Nat → Int → Nat → Option Err → Option RetryOutcome
  | fuel, attempt, calls, lastErr =>
    if attempt ≤ maxAttempts then
      match fuel with
      | 0 => none
      | fuel + 1 =>
        match initCall calls with
        | (oidcCfg, none) => some ⟨oidcCfg, none, [RetryEvent.initOIDC calls]⟩
        | (_, some err) =>
          let lastErr := some err
          let evs :=
            if attempt < maxAttempts then
              [RetryEvent.log attempt maxAttempts err interval, RetryEvent.sleep interval]
            else []
          (retryLoop initCall maxAttempts interval fuel (wrapInt (attempt + 1)) (calls + 1)
            lastErr).map (RetryOutcome.after (RetryEvent.initOIDC calls :: evs))
    else
      some ⟨none, lastErr, []⟩

/-- The function `initOIDCWithRetry` (main.go 111-125). `world k` is the provider discovery that the
`k`-th call of `initOIDC` meets. -/
def initOIDCWithRetry (urlParse : String → Except Err URL) (DefaultTransport : RoundTripper)
    (world : Nat → Discovery) (cfg : appConfig) (maxAttempts interval : Int) (fuel : Nat) :
    Option RetryOutcome :=
  retryLoop (fun k => initOIDC urlParse DefaultTransport (world k) cfg) maxAttempts interval
    fuel 1 0 none

/-- Whether an event is a call of `initOIDC`. -/
def RetryEvent.isCall : RetryEvent → Bool
  | RetryEvent.initOIDC _ => true
  | _ => false

/-- Whether an event is a sleep. -/
def RetryEvent.isSleep : RetryEvent → Bool
  | RetryEvent.sleep _ => true
  | _ => false

/-- Whether an event is a log line. -/
def RetryEvent.isLog : RetryEvent → Bool
  | RetryEvent.log _ _ _ _ => true
  | _ => false

/-! ## Words of the specification -/

/-- The string stored under the session key `state`; a session with no stored `state`, or
a non-string one, counts as the empty string. -/
def Session.storedState (s : Session) : String :=
  match s.Get "state" with
  | some (Value.str v) => v
  | _ => ""

/-- The username the specification derives from the claims: the preferred username when
it is non-empty, otherwise the email when it is non-empty, otherwise the placeholder. -/
def specUsername (preferredUsername email : String) : String :=
  if preferredUsername ≠ "" then preferredUsername
  else if email ≠ "" then email
  else "user"

/-- The greeting of the landing view for a user. -/
def greeting (username : String) : String :=
  "Привет, " ++ username ++ ", это Go сервис"

/-! ## Example collaborators and requests -/

/-- A provider that answers every code with a token response carrying the ID token
`"jwt"`, verifies it, and decodes the claims of the user alice; the store saves. -/
def aliceEnv : Collaborators where
  Exchange := fun _ => Except.ok ⟨"at", [("id_token", Value.str "jwt")]⟩
  Verify := fun raw => Except.ok ⟨"https://idp.example/realm", "sub-1", raw⟩
  Claims := fun _ => Except.ok ⟨"alice", "alice@example.org"⟩
  Save := fun _ => none
  AuthCodeURL := fun state => "https://idp.example/realm/auth?state=" ++ state

/-- A provider whose token response carries no `id_token`. -/
def noIDTokenEnv : Collaborators :=
  { aliceEnv with Exchange := fun _ => Except.ok ⟨"at", []⟩ }

/-- A provider whose token endpoint fails. -/
def exchangeFailsEnv : Collaborators :=
  { aliceEnv with Exchange := fun _ => Except.error ⟨"oauth2: cannot fetch token"⟩ }

/-- The session of a browser that went through `/login`. -/
def awaitingSession : Session := ⟨[("state", Value.str "state")]⟩

/-- A session whose stored `state` is the empty string. -/
def emptyStateSession : Session := ⟨[("state", Value.str "")]⟩

/-- The request `/callback?state=state&code=abc`. -/
def goodCallback : Context := ⟨[("state", "state"), ("code", "abc")]⟩

/-- The request `/callback?state=s2&code=abc`. -/
def forgedCallback : Context := ⟨[("state", "s2"), ("code", "abc")]⟩

/-- The request `/callback?code=abc`, without a `state` parameter. -/
def statelessCallback : Context := ⟨[("code", "abc")]⟩

/-- Split a list of characters before the first occurrence of `sep`; the second part
starts with `sep` when there is one. -/
def splitBefore (sep : Char) : List Char → List Char × List Char
  | [] => ([], [])
  | ch :: rest =>
    if ch = sep then ([], ch :: rest)
    else ((ch :: (splitBefore sep rest).1), (splitBefore sep rest).2)

/-- A parser for URLs written `scheme://host/path?query#fragment`, standing for
`url.Parse` on the URLs of the examples. -/
def parseSimpleURL (s : String) : Except Err URL :=
  match (splitBefore ':' s.data).2 with
  | ':' :: '/' :: '/' :: rest =>
    let beforeFragment := splitBefore '#' rest
    let beforeQuery := splitBefore '?' beforeFragment.1
    let hostPath := splitBefore '/' beforeQuery.1
    Except.ok
      { Scheme := String.mk (splitBefore ':' s.data).1
        Host := String.mk hostPath.1
        Path := String.mk hostPath.2
        RawQuery := String.mk beforeQuery.2.tail
        Fragment := String.mk beforeFragment.2.tail }
  | _ => Except.error ⟨"parse " ++ s ++ ": missing protocol scheme"⟩

/-- A base transport without network. -/
def offlineTransport : RoundTripper :=
  fun _ => Except.error ⟨"dial tcp: network is unreachable"⟩

/-- The configuration of the scenario of the specification: a public issuer and an
internal discovery address. -/
def realmConfig : appConfig where
  Port := "8212"
  Issuer := "https://idp.example/realm"
  DiscoveryInternal := "http://idp-internal:8080"
  ClientID := "go-app"
  ClientSecret := "secret"
  RedirectURL := "http://localhost:8212/callback"
  SessionSecret := "change_me_session"

/-- The discovery request of the scenario, as `http.NewRequest` builds it. -/
def discoveryRequest : Request where
  Method := "GET"
  URL := some ⟨"https", "idp.example", "/realm/.well-known/openid-configuration", "", ""⟩
  Host := "idp.example"
  Header := [("Accept", ["application/json"])]
  Body := []

/-- A request to another host, with a query and a body. -/
def otherHostRequest : Request where
  Method := "POST"
  URL := some ⟨"https", "other.example", "/token", "a=1", ""⟩
  Host := "other.example"
  Header := [("Content-Type", ["application/x-www-form-urlencoded"])]
  Body := [99, 111, 100, 101]

/-- The rewriting transport of the scenario. -/
def scenarioTransport : issuerRewriteTransport where
  base := offlineTransport
  issuerHost := "idp.example"
  internalHost := "idp-internal:8080"

/-- A provider that is never reachable: the `k`-th discovery fails with an error that
tells the calls apart. -/
def refusingWorld : Nat → Discovery :=
  fun k _ _ => Except.error ⟨"connection refused" ++ String.mk (List.replicate k '.')⟩

/-- A provider that is reachable from the first call on. -/
def readyWorld : Nat → Discovery :=
  fun _ _ issuer =>
    Except.ok ⟨issuer, ⟨issuer ++ "/auth", issuer ++ "/token"⟩, issuer ++ "/certs"⟩

/-! ## Lemmas on sessions -/

theorem lookupKey_filter_ne {α : Type} (key k : String) (l : List (String × α)) :
    lookupKey key (l.filter (fun p => !decide (p.1 = k))) =
      if key = k then none else lookupKey key l := by
  induction l with
  | nil => simp [lookupKey]
  | cons p rest ih =>
    obtain ⟨a, b⟩ := p
    by_cases hak : a = k
    · subst hak
      by_cases hka : key = a
      · subst hka; simp [List.filter, ih]
      · have : ¬ a = key := fun h => hka h.symm
        simp [List.filter, ih, lookupKey, hka, this]
    · by_cases hka : a = key
      · subst hka
        simp [List.filter, hak, lookupKey]
      · simp [List.filter, hak, lookupKey, hka, ih]

theorem Session.get_delete (s : Session) (k key : String) :
    (s.Delete k).Get key = if key = k then none else s.Get key := by
  simp [Session.Get, Session.Delete, lookupKey_filter_ne]

theorem Session.get_set (s : Session) (k key : String) (v : Value) :
    (s.Set k v).Get key = if key = k then some v else s.Get key := by
  by_cases h : key = k
  · subst h; simp [Session.Get, Session.Set, lookupKey]
  · have h2 : ¬ k = key := fun e => h e.symm
    simp [Session.Get, Session.Set, lookupKey, h, h2, Session.Delete, lookupKey_filter_ne]

theorem storedState_eq (s : Session) : (asString (s.Get "state")).1 = s.storedState := by
  unfold Session.storedState
  cases h : s.Get "state" with
  | none => rfl
  | some v => cases v <;> rfl

theorem pickUsername_eq (cl : Claims) :
    pickUsername cl = specUsername cl.PreferredUsername cl.Email := by
  unfold pickUsername specUsername
  by_cases h1 : cl.PreferredUsername = "" <;> by_cases h2 : cl.Email = "" <;> simp [h1, h2]

theorem pickUsername_ne_empty (cl : Claims) : pickUsername cl ≠ "" := by
  unfold pickUsername
  by_cases h1 : cl.PreferredUsername = "" <;> by_cases h2 : cl.Email = "" <;> simp [h1, h2]

theorem asString_none : asString none = ("", false) := rfl

theorem asString_str (v : String) : asString (some (Value.str v)) = (v, true) := rfl

theorem asString_int (n : Int) : asString (some (Value.int n)) = ("", false) := rfl

theorem asString_bool (b : Bool) : asString (some (Value.bool b)) = ("", false) := rfl

/-- The session a successful callback leaves: `state` deleted, `username` set. -/
theorem callback_success_inv (env : Collaborators) (s : Session) (c : Context)
    (h : (handleCallback env s c).response = Response.Redirect 302 "/") :
    ∃ tok raw idt cl,
      c.Query "state" ≠ "" ∧ c.Query "state" = s.storedState ∧ c.Query "code" ≠ ""
        ∧ env.Exchange (c.Query "code") = Except.ok tok
        ∧ tok.Extra "id_token" = some (Value.str raw)
        ∧ env.Verify raw = Except.ok idt
        ∧ env.Claims idt = Except.ok cl
        ∧ env.Save ((s.Delete "state").Set "username" (Value.str (pickUsername cl))) = none
        ∧ (handleCallback env s c).session
            = (s.Delete "state").Set "username" (Value.str (pickUsername cl))
        ∧ (handleCallback env s c).stored
            = (s.Delete "state").Set "username" (Value.str (pickUsername cl)) := by
  by_cases hc : c.Query "state" = "" ∨ c.Query "state" ≠ (asString (s.Get "state")).1
  · simp only [handleCallback, if_pos hc] at h
    exact absurd h (by simp)
  · by_cases hcode : c.Query "code" = ""
    · simp only [handleCallback, if_neg hc, if_pos hcode] at h
      exact absurd h (by simp)
    · cases hx : env.Exchange (c.Query "code") with
      | error e =>
        simp only [handleCallback, if_neg hc, if_neg hcode, hx] at h
        exact absurd h (by simp)
      | ok tok =>
        cases hv : tok.Extra "id_token" with
        | none =>
          simp only [handleCallback, if_neg hc, if_neg hcode, hx, hv, asString_none, asString_str,
            asString_int, asString_bool] at h
          exact absurd h (by simp)
        | some v =>
          cases v with
          | int n =>
            simp only [handleCallback, if_neg hc, if_neg hcode, hx, hv, asString_none,
              asString_str, asString_int, asString_bool] at h
            exact absurd h (by simp)
          | bool b =>
            simp only [handleCallback, if_neg hc, if_neg hcode, hx, hv, asString_none,
              asString_str, asString_int, asString_bool] at h
            exact absurd h (by simp)
          | str raw =>
            cases hver : env.Verify raw with
            | error e =>
              simp only [handleCallback, if_neg hc, if_neg hcode, hx, hv, asString_none,
                asString_str, asString_int, asString_bool, hver] at h
              exact absurd h (by simp)
            | ok idt =>
              cases hcl : env.Claims idt with
              | error e =>
                simp only [handleCallback, if_neg hc, if_neg hcode, hx, hv, asString_none,
                  asString_str, asString_int, asString_bool, hver, hcl] at h
                exact absurd h (by simp)
              | ok cl =>
                cases hs : env.Save
                    ((s.Delete "state").Set "username" (Value.str (pickUsername cl))) with
                | some e =>
                  simp only [handleCallback, if_neg hc, if_neg hcode, hx, hv, asString_none,
                    asString_str, asString_int, asString_bool, hver, hcl, hs] at h
                  exact absurd h (by simp)
                | none =>
                  refine ⟨tok, raw, idt, cl, ?_, ?_, hcode, rfl, hv, hver, hcl, hs, ?_, ?_⟩
                  · exact fun e => hc (Or.inl e)
                  · rw [← storedState_eq]
                    by_contra hne
                    exact hc (Or.inr hne)
                  · simp only [handleCallback, if_neg hc, if_neg hcode, hx, hv, asString_none,
                    asString_str, asString_int, asString_bool, hver, hcl, hs]
                  · simp only [handleCallback, if_neg hc, if_neg hcode, hx, hv, asString_none,
                    asString_str, asString_int, asString_bool, hver, hcl, hs]

/-- From a fresh session, `/login` leaves the session of the examples and redirects to the
provider with the same `state`. -/
theorem login_awaits_callback :
    (handleLogin aliceEnv ⟨[]⟩).stored = awaitingSession
      ∧ (handleLogin aliceEnv ⟨[]⟩).response
          = Response.Redirect 302 "https://idp.example/realm/auth?state=state"
      ∧ awaitingSession.storedState = "state" := by
  decide

/-- A request that fails the state check is answered at once. -/
theorem callback_reject (env : Collaborators) (s : Session) (c : Context)
    (h : c.Query "state" = "" ∨ c.Query "state" ≠ s.storedState) :
    handleCallback env s c = ⟨Response.String 400 [] "invalid state", s, s, []⟩ := by
  have hc : c.Query "state" = "" ∨ c.Query "state" ≠ (asString (s.Get "state")).1 := by
    rw [storedState_eq]; exact h
  simp only [handleCallback, if_pos hc]

/-- The state check passes for a non-empty state equal to the stored one. -/
theorem state_check_passes (s : Session) (c : Context) (h1 : c.Query "state" ≠ "")
    (h2 : c.Query "state" = s.storedState) :
    ¬ (c.Query "state" = "" ∨ c.Query "state" ≠ (asString (s.Get "state")).1) := by
  rw [storedState_eq]
  rintro (h | h)
  · exact h1 h
  · exact h h2

/-- After a successful callback the session has no `state` and a non-empty `username`. -/
theorem success_session_shape (s : Session) (cl : Claims) :
    ((s.Delete "state").Set "username" (Value.str (pickUsername cl))).Get "state" = none
      ∧ ((s.Delete "state").Set "username" (Value.str (pickUsername cl))).Get "username"
          = some (Value.str (pickUsername cl)) := by
  constructor
  · rw [Session.get_set, Session.get_delete]
    simp
  · rw [Session.get_set]
    simp

/-- A session without a `state` entry has the empty stored state. -/
theorem storedState_of_get_none (s : Session) (h : s.Get "state" = none) :
    s.storedState = "" := by
  simp [Session.storedState, h]

/-- C2: for every `/callback` request that completes successfully (the handler responds
302 to "/"), the session immediately afterwards, in memory and in the store, has no
`state` entry and has a `username` entry that is a non-empty string. -/
theorem callback_success_session (env : Collaborators) (s : Session) (c : Context)
    (h : (handleCallback env s c).response = Response.Redirect 302 "/") :
    (handleCallback env s c).session.Get "state" = none
      ∧ (∃ u, u ≠ "" ∧ (handleCallback env s c).session.Get "username" = some (Value.str u))
      ∧ (handleCallback env s c).stored = (handleCallback env s c).session := by
  obtain ⟨tok, raw, idt, cl, -, -, -, -, -, -, -, -, hses, hst⟩ :=
    callback_success_inv env s c h
  rw [hst, hses]
  exact ⟨(success_session_shape s cl).1, ⟨pickUsername cl, pickUsername_ne_empty cl,
    (success_session_shape s cl).2⟩, rfl⟩

/-- Witness of C2: the end-to-end flow of the user alice. -/
theorem callback_success_session_witness :
    (handleCallback aliceEnv awaitingSession goodCallback).response = Response.Redirect 302 "/"
      ∧ (handleCallback aliceEnv awaitingSession goodCallback).session.Get "state" = none
      ∧ (∃ u, u ≠ "" ∧ (handleCallback aliceEnv awaitingSession goodCallback).session.Get
            "username" = some (Value.str u)) :=
  have h : (handleCallback aliceEnv awaitingSession goodCallback).response
      = Response.Redirect 302 "/" := by decide
  have t := callback_success_session aliceEnv awaitingSession goodCallback h
  ⟨h, t.1, t.2.1⟩

/-! ## Theorems on the handlers -/

/-- C1: for every request to the `/callback` handler and every session, if the query
parameter `state` is empty, or differs from the string stored under the session key
`state` (no stored `state`, or a non-string one, counts as the empty string), the handler
responds with status 400 and body "invalid state", calls no collaborator (so performs no
token exchange), and leaves the session, in memory and in the store, as it was. -/
theorem callback_invalid_state (env : Collaborators) (s : Session) (c : Context)
    (h : c.Query "state" = "" ∨ c.Query "state" ≠ s.storedState) :
    (handleCallback env s c).response = Response.String 400 [] "invalid state"
      ∧ (handleCallback env s c).response.status = 400
      ∧ (handleCallback env s c).effects = []
      ∧ (handleCallback env s c).effects.any Effect.isExchange = false
      ∧ (handleCallback env s c).session = s
      ∧ (handleCallback env s c).stored = s := by
  have hc : c.Query "state" = "" ∨ c.Query "state" ≠ (asString (s.Get "state")).1 := by
    rw [storedState_eq]; exact h
  simp only [handleCallback, if_pos hc]
  simp [Response.status]

/-- Witness of C1: the scenario of the specification, a session holding the state of
`/login` and the request `/callback?state=s2&code=abc`. -/
theorem callback_invalid_state_witness :
    (forgedCallback.Query "state" = "" ∨ forgedCallback.Query "state" ≠ awaitingSession.storedState)
      ∧ (handleCallback aliceEnv awaitingSession forgedCallback).response
          = Response.String 400 [] "invalid state"
      ∧ (handleCallback aliceEnv awaitingSession forgedCallback).effects = []
      ∧ (handleCallback aliceEnv awaitingSession forgedCallback).session = awaitingSession :=
  have h : forgedCallback.Query "state" = "" ∨
      forgedCallback.Query "state" ≠ awaitingSession.storedState := by decide
  have t := callback_invalid_state aliceEnv awaitingSession forgedCallback h
  ⟨h, t.1, t.2.2.1, t.2.2.2.2.1⟩

/-- C3, as stated, fails for an empty `state`: with the session's stored `state` equal to
the query `state` (both empty: a stored empty string, or no stored `state` at all), a
non-empty `code` and a failing token exchange, the handler answers 400 "invalid state",
not 500. -/
theorem callback_empty_state_not_500 :
    (statelessCallback.Query "state" = emptyStateSession.storedState
        ∧ emptyStateSession.Get "state" = some (Value.str (statelessCallback.Query "state"))
        ∧ statelessCallback.Query "code" ≠ ""
        ∧ exchangeFailsEnv.Exchange (statelessCallback.Query "code")
            = Except.error ⟨"oauth2: cannot fetch token"⟩
        ∧ (handleCallback exchangeFailsEnv emptyStateSession statelessCallback).response
            = Response.String 400 [] "invalid state"
        ∧ (handleCallback exchangeFailsEnv emptyStateSession statelessCallback).response.status
            ≠ 500)
      ∧ (statelessCallback.Query "state" = (Session.mk []).storedState
        ∧ (handleCallback exchangeFailsEnv (Session.mk []) statelessCallback).response.status
            ≠ 500) :=
  ⟨⟨by decide, by decide, by decide, rfl, by decide, by decide⟩, by decide, by decide⟩

/-- C3 (amended): for every `/callback` request whose query `state` is non-empty and
matches the session's stored `state`, and whose `code` is non-empty: if the token exchange
fails, or the token response carries no string `id_token`, or ID-token verification fails,
or claim decoding fails, then the handler responds with status 500 and the session, in
memory and in the store, is exactly as it was before the request (`state` still stored,
`username` not set by this request). -/
theorem callback_downstream_failure (env : Collaborators) (s : Session) (c : Context)
    (hstate : c.Query "state" ≠ "") (hmatch : c.Query "state" = s.storedState)
    (hcode : c.Query "code" ≠ "")
    (hfail :
      (∃ e, env.Exchange (c.Query "code") = Except.error e)
      ∨ (∃ tok, env.Exchange (c.Query "code") = Except.ok tok
            ∧ ∀ raw, tok.Extra "id_token" ≠ some (Value.str raw))
      ∨ (∃ tok raw e, env.Exchange (c.Query "code") = Except.ok tok
            ∧ tok.Extra "id_token" = some (Value.str raw)
            ∧ env.Verify raw = Except.error e)
      ∨ (∃ tok raw idt e, env.Exchange (c.Query "code") = Except.ok tok
            ∧ tok.Extra "id_token" = some (Value.str raw)
            ∧ env.Verify raw = Except.ok idt
            ∧ env.Claims idt = Except.error e)) :
    (handleCallback env s c).response.status = 500
      ∧ (handleCallback env s c).session = s
      ∧ (handleCallback env s c).stored = s
      ∧ (handleCallback env s c).session.Get "state" = some (Value.str (c.Query "state"))
      ∧ (handleCallback env s c).session.Get "username" = s.Get "username" := by
  have hc := state_check_passes s c hstate hmatch
  have hget : s.Get "state" = some (Value.str (c.Query "state")) := by
    rw [hmatch]
    unfold Session.storedState at hmatch ⊢
    cases hg : s.Get "state" with
    | none => rw [hg] at hmatch; exact absurd hmatch hstate
    | some v =>
      cases v with
      | str v => rfl
      | int n => rw [hg] at hmatch; exact absurd hmatch hstate
      | bool b => rw [hg] at hmatch; exact absurd hmatch hstate
  suffices hs : (handleCallback env s c).response.status = 500
      ∧ (handleCallback env s c).session = s ∧ (handleCallback env s c).stored = s by
    obtain ⟨h1, h2, h3⟩ := hs
    refine ⟨h1, h2, h3, ?_, ?_⟩
    · rw [h2]; exact hget
    · rw [h2]
  rcases hfail with ⟨e, hx⟩ | ⟨tok, hx, hno⟩ | ⟨tok, raw, e, hx, hv, hver⟩ |
    ⟨tok, raw, idt, e, hx, hv, hver, hcl⟩
  · simp only [handleCallback, if_neg hc, if_neg hcode, hx, Response.status, and_self]
  · cases hv : tok.Extra "id_token" with
    | none =>
      simp only [handleCallback, if_neg hc, if_neg hcode, hx, hv, asString_none,
        Response.status, and_self]
    | some v =>
      cases v with
      | str raw => exact absurd hv (hno raw)
      | int n =>
        simp only [handleCallback, if_neg hc, if_neg hcode, hx, hv, asString_int,
          Response.status, and_self]
      | bool b =>
        simp only [handleCallback, if_neg hc, if_neg hcode, hx, hv, asString_bool,
          Response.status, and_self]
  · simp only [handleCallback, if_neg hc, if_neg hcode, hx, hv, asString_str, hver,
      Response.status, and_self]
  · simp only [handleCallback, if_neg hc, if_neg hcode, hx, hv, asString_str, hver, hcl,
      Response.status, and_self]

/-- Witness of C3: the scenario of the specification, a correct `state`, a valid `code`
and a token response without an `id_token`. -/
theorem callback_downstream_failure_witness :
    (handleCallback noIDTokenEnv awaitingSession goodCallback).response
        = Response.String 500 [] "no id_token in token response"
      ∧ (handleCallback noIDTokenEnv awaitingSession goodCallback).response.status = 500
      ∧ (handleCallback noIDTokenEnv awaitingSession goodCallback).session = awaitingSession
      ∧ (handleCallback noIDTokenEnv awaitingSession goodCallback).session.Get "username"
          = none :=
  have t := callback_downstream_failure noIDTokenEnv awaitingSession goodCallback
    (by decide) (by decide) (by decide)
    (Or.inr (Or.inl ⟨⟨"at", []⟩, rfl, fun raw h => by simp [Token.Extra, lookupKey] at h⟩))
  ⟨by decide, t.1, t.2.1, t.2.2.2.2.trans (by decide)⟩

/-- C4: the `state` value is single-use. From the session that a successful `/callback`
request leaves (in memory and in the store), every further `/callback` request, for every
query (every `state`, the one just consumed included, and every `code`) and whatever the
collaborators would answer, is rejected with status 400 "invalid state", attempts no token
exchange, and leaves that session as it is. -/
theorem callback_state_single_use (env : Collaborators) (s : Session) (c : Context)
    (h : (handleCallback env s c).response = Response.Redirect 302 "/")
    (env2 : Collaborators) (c2 : Context) :
    (handleCallback env2 (handleCallback env s c).stored c2).response
        = Response.String 400 [] "invalid state"
      ∧ (handleCallback env2 (handleCallback env s c).stored c2).effects = []
      ∧ (handleCallback env2 (handleCallback env s c).stored c2).effects.any Effect.isExchange
          = false
      ∧ (handleCallback env2 (handleCallback env s c).stored c2).stored
          = (handleCallback env s c).stored
      ∧ (handleCallback env2 (handleCallback env s c).session c2).response
          = Response.String 400 [] "invalid state"
      ∧ (handleCallback env2 (handleCallback env s c).session c2).effects = [] := by
  obtain ⟨tok, raw, idt, cl, -, -, -, -, -, -, -, -, hses, hst⟩ :=
    callback_success_inv env s c h
  have hempty : ((s.Delete "state").Set "username" (Value.str (pickUsername cl))).storedState
      = "" := storedState_of_get_none _ (success_session_shape s cl).1
  have hrej : c2.Query "state" = "" ∨ c2.Query "state"
      ≠ ((s.Delete "state").Set "username" (Value.str (pickUsername cl))).storedState := by
    rw [hempty]
    exact em _
  rw [hst, hses, callback_reject env2 _ c2 hrej]
  simp

/-- Witness of C4: after alice's login the same callback is replayed. -/
theorem callback_state_single_use_witness :
    (handleCallback aliceEnv awaitingSession goodCallback).response = Response.Redirect 302 "/"
      ∧ (handleCallback aliceEnv (handleCallback aliceEnv awaitingSession goodCallback).stored
          goodCallback).response = Response.String 400 [] "invalid state"
      ∧ (handleCallback aliceEnv (handleCallback aliceEnv awaitingSession goodCallback).stored
          goodCallback).effects = [] :=
  have h : (handleCallback aliceEnv awaitingSession goodCallback).response
      = Response.Redirect 302 "/" := by decide
  have t := callback_state_single_use aliceEnv awaitingSession goodCallback h aliceEnv
    goodCallback
  ⟨h, t.1, t.2.1⟩

/-- C5: for every session, the `GET /` handler responds with a 302 redirect to "/login" if
and only if the session's `username` entry is absent, is not a string, or is the empty
string; in every other case the entry is a non-empty string `u` and the handler responds
200 with the body "Привет, u, это Go сервис", which contains `u`. The session is never
changed. -/
theorem index_redirect_iff (s : Session) :
    ((handleIndex s).response = Response.Redirect 302 "/login"
        ↔ (s.Get "username" = none
            ∨ (∃ v, s.Get "username" = some v ∧ ∀ u, v ≠ Value.str u)
            ∨ s.Get "username" = some (Value.str "")))
      ∧ (¬ (s.Get "username" = none
            ∨ (∃ v, s.Get "username" = some v ∧ ∀ u, v ≠ Value.str u)
            ∨ s.Get "username" = some (Value.str ""))
          → ∃ u, u ≠ "" ∧ s.Get "username" = some (Value.str u)
              ∧ (handleIndex s).response
                  = Response.String 200 [("Content-Type", "text/html; charset=utf-8")]
                      ("Привет, " ++ u ++ ", это Go сервис")
              ∧ (handleIndex s).response.status = 200)
      ∧ (handleIndex s).session = s ∧ (handleIndex s).stored = s := by
  cases hg : s.Get "username" with
  | none => simp [handleIndex, hg, asString_none]
  | some v =>
    cases v with
    | int n => simp [handleIndex, hg, asString_int]
    | bool b => simp [handleIndex, hg, asString_bool]
    | str u =>
      by_cases hu : u = ""
      · subst hu
        simp [handleIndex, hg, asString_str]
      · simp [handleIndex, hg, asString_str, hu, Response.status]
        exact ⟨u, hu, rfl, rfl⟩

/-- C6: for every verified ID token with decoded claims (preferred_username, email), the
`username` that a successful `/callback` stores in the session equals preferred_username
when it is non-empty, otherwise email when it is non-empty, otherwise the fixed placeholder
"user"; in particular preferred_username "alice" yields the session username "alice". -/
theorem callback_username_from_claims (env : Collaborators) (s : Session) (c : Context)
    (tok : Token) (raw : String) (idt : IDToken) (cl : Claims)
    (hsucc : (handleCallback env s c).response = Response.Redirect 302 "/")
    (hx : env.Exchange (c.Query "code") = Except.ok tok)
    (hv : tok.Extra "id_token" = some (Value.str raw))
    (hver : env.Verify raw = Except.ok idt)
    (hcl : env.Claims idt = Except.ok cl) :
    (handleCallback env s c).session.Get "username"
        = some (Value.str (specUsername cl.PreferredUsername cl.Email))
      ∧ (handleCallback env s c).stored.Get "username"
        = some (Value.str (specUsername cl.PreferredUsername cl.Email))
      ∧ (cl.PreferredUsername = "alice"
          → (handleCallback env s c).stored.Get "username" = some (Value.str "alice")) := by
  obtain ⟨tok2, raw2, idt2, cl2, -, -, -, hx2, hv2, hver2, hcl2, -, hses, hst⟩ :=
    callback_success_inv env s c hsucc
  rw [hx] at hx2
  cases hx2
  rw [hv] at hv2
  cases hv2
  rw [hver] at hver2
  cases hver2
  rw [hcl] at hcl2
  cases hcl2
  have hu := (success_session_shape s cl).2
  rw [pickUsername_eq] at hu hses hst
  rw [hses, hst]
  refine ⟨hu, hu, fun ha => ?_⟩
  rw [hu, ha]
  simp [specUsername]

/-- Witness of C6: the end-to-end flow with the claims of alice, followed by `GET /`. -/
theorem callback_username_from_claims_witness :
    (handleCallback aliceEnv awaitingSession goodCallback).stored.Get "username"
        = some (Value.str "alice")
      ∧ (handleIndex (handleCallback aliceEnv awaitingSession goodCallback).stored).response
        = Response.String 200 [("Content-Type", "text/html; charset=utf-8")]
            "Привет, alice, это Go сервис" :=
  have t := callback_username_from_claims aliceEnv awaitingSession goodCallback
    ⟨"at", [("id_token", Value.str "jwt")]⟩ "jwt" ⟨"https://idp.example/realm", "sub-1", "jwt"⟩
    ⟨"alice", "alice@example.org"⟩ (by decide) rfl rfl rfl rfl
  ⟨t.2.2 rfl, by decide⟩

/-! ## The retry loop: lemmas and theorems -/

theorem wrapInt_succ (a : Int) (h1 : 1 ≤ a) (h2 : a < maxInt) : wrapInt (a + 1) = a + 1 := by
  unfold maxInt at h2
  unfold wrapInt
  omega

theorem wrapInt_le_maxInt (a : Int) : wrapInt a ≤ maxInt := by
  unfold maxInt wrapInt
  omega

/-- The loop has ended. -/
theorem retryLoop_done (initCall : Nat → Option oidcConfig × Option Err)
    (maxAttempts interval : Int) (fuel : Nat) (attempt : Int) (calls : Nat)
    (lastErr : Option Err) (h : ¬ attempt ≤ maxAttempts) :
    retryLoop initCall maxAttempts interval fuel attempt calls lastErr
      = some ⟨none, lastErr, []⟩ := by
  cases fuel <;> simp [retryLoop, h]

/-- One iteration whose call of `initOIDC` fails. -/
theorem retryLoop_fail (initCall : Nat → Option oidcConfig × Option Err)
    (maxAttempts interval : Int) (fuel : Nat) (attempt : Int) (calls : Nat)
    (lastErr : Option Err) (h : attempt ≤ maxAttempts) (c : Option oidcConfig) (err : Err)
    (hcall : initCall calls = (c, some err)) :
    retryLoop initCall maxAttempts interval (fuel + 1) attempt calls lastErr
      = (retryLoop initCall maxAttempts interval fuel (wrapInt (attempt + 1)) (calls + 1)
          (some err)).map
          (RetryOutcome.after (RetryEvent.initOIDC calls ::
            (if attempt < maxAttempts then
              [RetryEvent.log attempt maxAttempts err interval, RetryEvent.sleep interval]
            else []))) := by
  rw [retryLoop]
  simp only [if_pos h, hcall]

/-- One iteration whose call of `initOIDC` succeeds. -/
theorem retryLoop_ok (initCall : Nat → Option oidcConfig × Option Err)
    (maxAttempts interval : Int) (fuel : Nat) (attempt : Int) (calls : Nat)
    (lastErr : Option Err) (h : attempt ≤ maxAttempts) (c : Option oidcConfig)
    (hcall : initCall calls = (c, none)) :
    retryLoop initCall maxAttempts interval (fuel + 1) attempt calls lastErr
      = some ⟨c, none, [RetryEvent.initOIDC calls]⟩ := by
  rw [retryLoop]
  simp only [if_pos h, hcall]

/-- Out of fuel inside the loop. -/
theorem retryLoop_zero (initCall : Nat → Option oidcConfig × Option Err)
    (maxAttempts interval : Int) (attempt : Int) (calls : Nat)
    (lastErr : Option Err) (h : attempt ≤ maxAttempts) :
    retryLoop initCall maxAttempts interval 0 attempt calls lastErr = none := by
  rw [retryLoop]
  simp only [if_pos h]

/-- A failing call, as a pair. -/
theorem failing_call (r : Option oidcConfig × Option Err) (h : r.2 ≠ none) :
    ∃ c err, r = (c, some err) := by
  obtain ⟨c, e⟩ := r
  cases e with
  | none => exact absurd rfl h
  | some err => exact ⟨c, err, rfl⟩

theorem isLog_call (k : Nat) : (RetryEvent.initOIDC k).isLog = false := rfl

theorem isLog_log (a n : Int) (e : Err) (d : Int) : (RetryEvent.log a n e d).isLog = true := rfl

theorem isLog_sleep (d : Int) : (RetryEvent.sleep d).isLog = false := rfl

/-- The loop on a provider that never answers, `m` iterations before the end. -/
theorem retryLoop_all_fail (initCall : Nat → Option oidcConfig × Option Err)
    (maxAttempts interval : Int) (hmax : maxAttempts < maxInt)
    (hfail : ∀ k, (initCall k).2 ≠ none) :
    ∀ (m fuel : Nat) (attempt : Int) (calls : Nat) (lastErr : Option Err),
      1 ≤ attempt → attempt + m = maxAttempts + 1 → m ≤ fuel →
      ∃ out, retryLoop initCall maxAttempts interval fuel attempt calls lastErr = some out
        ∧ out.cfg = none
        ∧ out.err = (if m = 0 then lastErr else (initCall (calls + m - 1)).2)
        ∧ out.trace.filter RetryEvent.isCall = (List.range' calls m).map RetryEvent.initOIDC
        ∧ out.trace.filter RetryEvent.isSleep
            = List.replicate (m - 1) (RetryEvent.sleep interval)
        ∧ out.trace.filter (fun e => !e.isLog)
            = List.intersperse (RetryEvent.sleep interval)
                ((List.range' calls m).map RetryEvent.initOIDC) := by
  intro m
  induction m with
  | zero =>
    intro fuel attempt calls lastErr _ hm _
    have hgt : ¬ attempt ≤ maxAttempts := by omega
    refine ⟨_, retryLoop_done initCall maxAttempts interval fuel attempt calls lastErr hgt, ?_⟩
    simp
  | succ m ih =>
    intro fuel attempt calls lastErr h1 hm hfuel
    have hle : attempt ≤ maxAttempts := by omega
    obtain ⟨f, rfl⟩ : ∃ f, fuel = f + 1 := ⟨fuel - 1, by omega⟩
    obtain ⟨c, err, hcall⟩ := failing_call (initCall calls) (hfail calls)
    rw [retryLoop_fail initCall maxAttempts interval f attempt calls lastErr hle c err hcall,
      wrapInt_succ attempt h1 (lt_of_le_of_lt hle hmax)]
    obtain ⟨out, hout, hcfg, herr, hcalls, hsleeps, hinter⟩ :=
      ih f (attempt + 1) (calls + 1) (some err) (by omega) (by push_cast at hm ⊢; omega)
        (by omega)
    rw [hout]
    refine ⟨_, rfl, ?_, ?_, ?_, ?_, ?_⟩
    · simpa [RetryOutcome.after] using hcfg
    · rcases m with _ | m
      · simp [RetryOutcome.after, herr, hcall]
      · simp only [RetryOutcome.after, herr]
        simp
        congr 2
        omega
    · by_cases hlt : attempt < maxAttempts
      · simp [RetryOutcome.after, hlt, RetryEvent.isCall, hcalls, List.range'_succ]
      · simp [RetryOutcome.after, hlt, RetryEvent.isCall, hcalls, List.range'_succ]
    · rcases m with _ | m
      · have hlt : ¬ attempt < maxAttempts := by push_cast at hm; omega
        simpa [RetryOutcome.after, hlt, RetryEvent.isSleep] using hsleeps
      · have hlt : attempt < maxAttempts := by push_cast at hm; omega
        simp [RetryOutcome.after, hlt, RetryEvent.isSleep, hsleeps, List.replicate_succ]
    · rcases m with _ | m
      · have hlt : ¬ attempt < maxAttempts := by push_cast at hm; omega
        simpa [RetryOutcome.after, hlt, RetryEvent.isLog, List.range'_succ] using hinter
      · have hlt : attempt < maxAttempts := by push_cast at hm; omega
        simp [RetryOutcome.after, hlt, isLog_call, isLog_log, isLog_sleep, hinter,
          List.range'_succ]

/-- The loop returns when the attempt counter cannot overflow. -/
theorem retryLoop_returns (initCall : Nat → Option oidcConfig × Option Err)
    (maxAttempts interval : Int) (hmax : maxAttempts < maxInt) :
    ∀ (m fuel : Nat) (attempt : Int) (calls : Nat) (lastErr : Option Err),
      1 ≤ attempt → attempt + m = maxAttempts + 1 → m ≤ fuel →
      ∃ out, retryLoop initCall maxAttempts interval fuel attempt calls lastErr = some out := by
  intro m
  induction m with
  | zero =>
    intro fuel attempt calls lastErr _ hm _
    have hgt : ¬ attempt ≤ maxAttempts := by omega
    exact ⟨_, retryLoop_done initCall maxAttempts interval fuel attempt calls lastErr hgt⟩
  | succ m ih =>
    intro fuel attempt calls lastErr h1 hm hfuel
    have hle : attempt ≤ maxAttempts := by omega
    obtain ⟨f, rfl⟩ : ∃ f, fuel = f + 1 := ⟨fuel - 1, by omega⟩
    rcases hcall : initCall calls with ⟨c, _ | err⟩
    · exact ⟨_, retryLoop_ok initCall maxAttempts interval f attempt calls lastErr hle c hcall⟩
    · rw [retryLoop_fail initCall maxAttempts interval f attempt calls lastErr hle c err hcall,
        wrapInt_succ attempt h1 (lt_of_le_of_lt hle hmax)]
      obtain ⟨out, hout⟩ :=
        ih f (attempt + 1) (calls + 1) (some err) (by omega) (by push_cast at hm ⊢; omega)
          (by omega)
      rw [hout]
      exact ⟨_, rfl⟩

/-- A nil error comes with a configuration, once the loop body has run or is about to. -/
theorem retryLoop_nil_err (initCall : Nat → Option oidcConfig × Option Err)
    (hinit : ∀ k, (initCall k).2 = none → (initCall k).1 ≠ none)
    (maxAttempts interval : Int) :
    ∀ (fuel : Nat) (attempt : Int) (calls : Nat) (lastErr : Option Err) (out : RetryOutcome),
      (attempt ≤ maxAttempts ∨ lastErr ≠ none) →
      retryLoop initCall maxAttempts interval fuel attempt calls lastErr = some out →
      out.err = none → out.cfg ≠ none := by
  intro fuel
  induction fuel with
  | zero =>
    intro attempt calls lastErr out hinv hrun herr
    by_cases hle : attempt ≤ maxAttempts
    · rw [retryLoop_zero initCall maxAttempts interval attempt calls lastErr hle] at hrun
      cases hrun
    · rw [retryLoop_done initCall maxAttempts interval 0 attempt calls lastErr hle] at hrun
      cases hrun
      rcases hinv with h | h
      · exact absurd h hle
      · exact absurd herr h
  | succ f ih =>
    intro attempt calls lastErr out hinv hrun herr
    by_cases hle : attempt ≤ maxAttempts
    · rcases hcall : initCall calls with ⟨c, _ | err⟩
      · rw [retryLoop_ok initCall maxAttempts interval f attempt calls lastErr hle c hcall]
          at hrun
        cases hrun
        have := hinit calls (by rw [hcall])
        rw [hcall] at this
        exact this
      · rw [retryLoop_fail initCall maxAttempts interval f attempt calls lastErr hle c err hcall]
          at hrun
        cases hrec : retryLoop initCall maxAttempts interval f (wrapInt (attempt + 1))
            (calls + 1) (some err) with
        | none => rw [hrec] at hrun; cases hrun
        | some out2 =>
          rw [hrec] at hrun
          cases hrun
          exact ih (wrapInt (attempt + 1)) (calls + 1) (some err) out2
            (Or.inr (by simp)) hrec herr
    · rw [retryLoop_done initCall maxAttempts interval (f + 1) attempt calls lastErr hle] at hrun
      cases hrun
      rcases hinv with h | h
      · exact absurd h hle
      · exact absurd herr h

/-- The function `initOIDC` returns a configuration exactly when it returns no error. -/
theorem initOIDC_nil_err (urlParse : String → Except Err URL) (base : RoundTripper)
    (np : Discovery) (cfg : appConfig) (h : (initOIDC urlParse base np cfg).2 = none) :
    (initOIDC urlParse base np cfg).1 ≠ none := by
  unfold initOIDC at h ⊢
  cases hc : discoveryClient urlParse base cfg with
  | error e => simp [hc] at h
  | ok client =>
    simp only [hc] at h ⊢
    cases hp : np client cfg.Issuer with
    | error e => simp [hp] at h
    | ok p => simp [hp]

/-- With the attempt counter at the largest `int` the loop never ends on a provider that
never answers. -/
theorem retryLoop_maxInt_diverges (initCall : Nat → Option oidcConfig × Option Err)
    (interval : Int) (hfail : ∀ k, (initCall k).2 ≠ none) :
    ∀ (fuel : Nat) (attempt : Int) (calls : Nat) (lastErr : Option Err),
      attempt ≤ maxInt →
      retryLoop initCall maxInt interval fuel attempt calls lastErr = none := by
  intro fuel
  induction fuel with
  | zero =>
    intro attempt calls lastErr hle
    exact retryLoop_zero initCall maxInt interval attempt calls lastErr hle
  | succ f ih =>
    intro attempt calls lastErr hle
    obtain ⟨c, err, hcall⟩ := failing_call (initCall calls) (hfail calls)
    rw [retryLoop_fail initCall maxInt interval f attempt calls lastErr hle c err hcall,
      ih (wrapInt (attempt + 1)) (calls + 1) (some err) (wrapInt_le_maxInt _)]
    rfl

/-- Every discovery of `refusingWorld` fails. -/
theorem refusingWorld_fails (urlParse : String → Except Err URL) (base : RoundTripper)
    (cfg : appConfig) (k : Nat) :
    (initOIDC urlParse base (refusingWorld k) cfg).2 ≠ none := by
  unfold initOIDC
  cases hc : discoveryClient urlParse base cfg with
  | error e => simp
  | ok client => simp [refusingWorld]

/-- C7, as stated, fails at the largest `int`: with `maxAttempts = 9223372036854775807`
and a provider that never answers, the loop test `attempt <= maxAttempts` is always true
(`attempt++` wraps), so `initOIDCWithRetry` never returns, whatever bound is put on the
number of iterations. -/
theorem retry_never_returns_at_maxInt :
    (∀ k, (initOIDC parseSimpleURL offlineTransport (refusingWorld k) realmConfig).2 ≠ none)
      ∧ 1 ≤ maxInt
      ∧ ¬ ∃ fuel out, initOIDCWithRetry parseSimpleURL offlineTransport refusingWorld
            realmConfig maxInt 3000000000 fuel = some out :=
  ⟨refusingWorld_fails parseSimpleURL offlineTransport realmConfig, by decide,
    fun ⟨fuel, out, h⟩ => by
      unfold initOIDCWithRetry at h
      rw [retryLoop_maxInt_diverges _ 3000000000
        (refusingWorld_fails parseSimpleURL offlineTransport realmConfig) fuel 1 0 none
        (by decide)] at h
      cases h⟩

/-- C7 (amended): for every `maxAttempts` with `1 <= maxAttempts < 9223372036854775807`
(the largest `int`) and every interval, when every call to `initOIDC` fails,
`initOIDCWithRetry` returns (within `maxAttempts` iterations), calls `initOIDC` exactly
`maxAttempts` times, sleeps exactly `maxAttempts - 1` times, each for `interval`, each
between two consecutive attempts (the trace without its log lines is the calls
interspersed with the sleeps), and returns no context together with the error of the
last, `maxAttempts`-th, attempt. -/
theorem retry_all_attempts_fail (urlParse : String → Except Err URL) (base : RoundTripper)
    (world : Nat → Discovery) (cfg : appConfig) (maxAttempts interval : Int) (fuel : Nat)
    (h1 : 1 ≤ maxAttempts) (h2 : maxAttempts < maxInt) (hfuel : maxAttempts.toNat ≤ fuel)
    (hfail : ∀ k, (initOIDC urlParse base (world k) cfg).2 ≠ none) :
    ∃ out, initOIDCWithRetry urlParse base world cfg maxAttempts interval fuel = some out
      ∧ out.cfg = none
      ∧ out.err = (initOIDC urlParse base (world (maxAttempts.toNat - 1)) cfg).2
      ∧ out.err ≠ none
      ∧ out.trace.countP RetryEvent.isCall = maxAttempts.toNat
      ∧ out.trace.filter RetryEvent.isCall
          = (List.range maxAttempts.toNat).map RetryEvent.initOIDC
      ∧ out.trace.countP RetryEvent.isSleep = maxAttempts.toNat - 1
      ∧ (∀ e ∈ out.trace, e.isSleep = true → e = RetryEvent.sleep interval)
      ∧ out.trace.filter (fun e => !e.isLog)
          = List.intersperse (RetryEvent.sleep interval)
              ((List.range maxAttempts.toNat).map RetryEvent.initOIDC) := by
  have hm : (1 : Int) + (maxAttempts.toNat : Int) = maxAttempts + 1 := by
    rw [Int.toNat_of_nonneg (by omega)]
    omega
  have hpos : maxAttempts.toNat ≠ 0 := by omega
  obtain ⟨out, hout, hcfg, herr, hcalls, hsleeps, hinter⟩ :=
    retryLoop_all_fail (fun k => initOIDC urlParse base (world k) cfg) maxAttempts interval h2
      hfail maxAttempts.toNat fuel 1 0 none (le_refl 1) hm hfuel
  rw [if_neg hpos, Nat.zero_add] at herr
  rw [← List.range_eq_range'] at hcalls hinter
  refine ⟨out, hout, hcfg, herr, ?_, ?_, hcalls, ?_, ?_, hinter⟩
  · rw [herr]
    exact hfail _
  · rw [List.countP_eq_length_filter, hcalls]
    simp
  · rw [List.countP_eq_length_filter, hsleeps]
    simp
  · intro e he hs
    have hmem : e ∈ out.trace.filter RetryEvent.isSleep := List.mem_filter.mpr ⟨he, hs⟩
    rw [hsleeps] at hmem
    exact (List.mem_replicate.mp hmem).2

/-- Witness of C7: three attempts, three seconds apart, on a provider that never answers. -/
theorem retry_all_attempts_fail_witness :
    ∃ out, initOIDCWithRetry parseSimpleURL offlineTransport refusingWorld realmConfig 3
          3000000000 3 = some out
      ∧ out.cfg = none
      ∧ out.err = some ⟨"connection refused.."⟩
      ∧ out.trace.countP RetryEvent.isCall = 3
      ∧ out.trace.countP RetryEvent.isSleep = 2 :=
  have t := retry_all_attempts_fail parseSimpleURL offlineTransport refusingWorld realmConfig
    3 3000000000 3 (by decide) (by decide) (by decide)
    (refusingWorld_fails parseSimpleURL offlineTransport realmConfig)
  t.elim fun out h => ⟨out, h.1, h.2.1, h.2.2.1.trans (by decide), h.2.2.2.2.1, h.2.2.2.2.2.2.1⟩

/-- C10: for every `maxAttempts <= 0`, `initOIDCWithRetry` makes no call to `initOIDC` and
no sleep (its trace is empty) and returns a nil context together with a nil error; for
every `maxAttempts >= 1`, a nil error comes with a non-nil configuration. -/
theorem retry_nonpositive_attempts (urlParse : String → Except Err URL) (base : RoundTripper)
    (world : Nat → Discovery) (cfg : appConfig) (interval : Int) :
    (∀ (maxAttempts : Int) (fuel : Nat), maxAttempts ≤ 0 →
        initOIDCWithRetry urlParse base world cfg maxAttempts interval fuel
          = some ⟨none, none, []⟩)
      ∧ (∀ (maxAttempts : Int) (fuel : Nat) (out : RetryOutcome), 1 ≤ maxAttempts →
          initOIDCWithRetry urlParse base world cfg maxAttempts interval fuel = some out →
          out.err = none → ∃ oidcCfg, out.cfg = some oidcCfg)
      ∧ (∀ (maxAttempts : Int) (fuel : Nat), 1 ≤ maxAttempts → maxAttempts < maxInt →
          maxAttempts.toNat ≤ fuel →
          ∃ out, initOIDCWithRetry urlParse base world cfg maxAttempts interval fuel
            = some out) := by
  refine ⟨?_, ?_, ?_⟩
  · intro maxAttempts fuel hle
    exact retryLoop_done _ maxAttempts interval fuel 1 0 none (by omega)
  · intro maxAttempts fuel out hge hrun herr
    have hne := retryLoop_nil_err (fun k => initOIDC urlParse base (world k) cfg)
      (fun k => initOIDC_nil_err urlParse base (world k) cfg) maxAttempts interval fuel 1 0 none
      out (Or.inl hge) hrun herr
    cases hcfg : out.cfg with
    | none => exact absurd hcfg hne
    | some c => exact ⟨c, rfl⟩
  · intro maxAttempts fuel hge hlt hfuel
    have hm : (1 : Int) + (maxAttempts.toNat : Int) = maxAttempts + 1 := by
      rw [Int.toNat_of_nonneg (by omega)]
      omega
    exact retryLoop_returns _ maxAttempts interval hlt maxAttempts.toNat fuel 1 0 none
      (le_refl 1) hm hfuel

/-- Witness of C10: zero and negative attempt counts on a reachable provider give the
pair (nil, nil); the call of `main`, with 15 attempts, gives a configuration. -/
theorem retry_nonpositive_attempts_witness :
    initOIDCWithRetry parseSimpleURL offlineTransport readyWorld realmConfig 0 3000000000 0
        = some ⟨none, none, []⟩
      ∧ initOIDCWithRetry parseSimpleURL offlineTransport readyWorld realmConfig (-3)
          3000000000 7 = some ⟨none, none, []⟩
      ∧ ∃ out oidcCfg, initOIDCWithRetry parseSimpleURL offlineTransport readyWorld realmConfig
          15 3000000000 15 = some out ∧ out.err = none ∧ out.cfg = some oidcCfg :=
  have t := retry_nonpositive_attempts parseSimpleURL offlineTransport readyWorld realmConfig
    3000000000
  ⟨t.1 0 0 (by decide), t.1 (-3) 7 (by decide),
    (t.2.2 15 15 (by decide) (by decide) (by decide)).elim fun out h =>
      have herr : out.err = none := by
        have h2 : (initOIDCWithRetry parseSimpleURL offlineTransport readyWorld realmConfig
            15 3000000000 15).map RetryOutcome.err = some none := by decide
        rw [h] at h2
        exact Option.some.inj h2
      (t.2.1 15 15 out (by decide) h herr).elim fun c hc => ⟨out, c, h, herr, hc⟩⟩

/-- The guard of `RoundTrip` holds: the request is rewritten. -/
theorem outgoing_rewrite (t : issuerRewriteTransport) (req : Request)
    (hg : t.internalHost ≠ "" ∧ req.URL ≠ none ∧ req.URL.map URL.Host = some t.issuerHost) :
    t.outgoing req
      = { req with
          URL := req.URL.map (fun u => { u with Host := t.internalHost })
          Host := t.internalHost } := by
  simp only [issuerRewriteTransport.outgoing, if_pos hg]

/-- The guard of `RoundTrip` fails: the request is passed on. -/
theorem outgoing_pass (t : issuerRewriteTransport) (req : Request)
    (hg : ¬ (t.internalHost ≠ "" ∧ req.URL ≠ none
      ∧ req.URL.map URL.Host = some t.issuerHost)) :
    t.outgoing req = req := by
  simp only [issuerRewriteTransport.outgoing, if_neg hg]

/-- C8: for every request passed to `issuerRewriteTransport.RoundTrip`, the request
delegated to the base transport is the input request with only its URL host and its `Host`
field replaced by `internalHost`, when `internalHost` is non-empty and the request's URL
host equals `issuerHost` exactly (method, scheme, path, query, fragment, headers and body
are preserved); and the input request itself, unmodified, in every other case, in
particular for every host other than `issuerHost`. -/
theorem RoundTrip_delegates (t : issuerRewriteTransport) (req : Request) :
    t.RoundTrip req = t.base (t.outgoing req)
      ∧ (∀ u, t.internalHost ≠ "" → req.URL = some u → u.Host = t.issuerHost →
          t.outgoing req
              = { req with URL := some { u with Host := t.internalHost }
                           Host := t.internalHost }
            ∧ (t.outgoing req).URL
                = some ⟨u.Scheme, t.internalHost, u.Path, u.RawQuery, u.Fragment⟩
            ∧ (t.outgoing req).Host = t.internalHost
            ∧ (t.outgoing req).Method = req.Method
            ∧ (t.outgoing req).Header = req.Header
            ∧ (t.outgoing req).Body = req.Body)
      ∧ (¬ (t.internalHost ≠ "" ∧ ∃ u, req.URL = some u ∧ u.Host = t.issuerHost) →
          t.outgoing req = req)
      ∧ (∀ u, req.URL = some u → u.Host ≠ t.issuerHost → t.outgoing req = req) := by
  refine ⟨rfl, ?_, ?_, ?_⟩
  · intro u hint hurl hhost
    have hg : t.internalHost ≠ "" ∧ req.URL ≠ none
        ∧ req.URL.map URL.Host = some t.issuerHost := by
      rw [hurl]
      exact ⟨hint, by simp, by simp [hhost]⟩
    rw [outgoing_rewrite t req hg, hurl]
    simp
  · intro hno
    have hg : ¬ (t.internalHost ≠ "" ∧ req.URL ≠ none
        ∧ req.URL.map URL.Host = some t.issuerHost) := by
      rintro ⟨hint, hsome, hhost⟩
      cases hurl : req.URL with
      | none => exact hsome hurl
      | some u => exact hno ⟨hint, u, hurl, by simpa [hurl] using hhost⟩
    exact outgoing_pass t req hg
  · intro u hurl hhost
    have hg : ¬ (t.internalHost ≠ "" ∧ req.URL ≠ none
        ∧ req.URL.map URL.Host = some t.issuerHost) := by
      rintro ⟨-, -, h⟩
      rw [hurl] at h
      exact hhost (by simpa using h)
    exact outgoing_pass t req hg

/-- Witness of C8: the transport of the scenario rewrites the host of the discovery
request and passes a request to another host as it is. -/
theorem RoundTrip_delegates_witness :
    scenarioTransport.outgoing discoveryRequest
        = { discoveryRequest with
            URL := some ⟨"https", "idp-internal:8080",
              "/realm/.well-known/openid-configuration", "", ""⟩
            Host := "idp-internal:8080" }
      ∧ scenarioTransport.outgoing otherHostRequest = otherHostRequest :=
  have t1 := (RoundTrip_delegates scenarioTransport discoveryRequest).2.1
    ⟨"https", "idp.example", "/realm/.well-known/openid-configuration", "", ""⟩
    (by decide) rfl rfl
  have t2 := (RoundTrip_delegates scenarioTransport otherHostRequest).2.2.2
    ⟨"https", "other.example", "/token", "a=1", ""⟩ rfl (by decide)
  ⟨t1.1, t2⟩

/-- C9, as stated, fails: the transport that `initOIDC` builds from the issuer
`https://idp.example/realm` and the internal discovery URL `http://idp-internal:8080`
delegates the request to `https://idp.example/realm/.well-known/openid-configuration` with
the URL `https://idp-internal:8080/realm/.well-known/openid-configuration`: the scheme and
the path are those of the request, and the URL differs from
`http://idp-internal:8080/.well-known/openid-configuration`. -/
theorem discovery_request_keeps_scheme_and_path :
    ∃ t, discoveryClient parseSimpleURL offlineTransport realmConfig = Except.ok (some t)
      ∧ t.issuerHost = "idp.example" ∧ t.internalHost = "idp-internal:8080"
      ∧ (parseSimpleURL "https://idp.example/realm/.well-known/openid-configuration").toOption
          = discoveryRequest.URL
      ∧ (t.outgoing discoveryRequest).URL.map URL.render
          = some "https://idp-internal:8080/realm/.well-known/openid-configuration"
      ∧ (t.outgoing discoveryRequest).URL.map URL.render
          ≠ some "http://idp-internal:8080/.well-known/openid-configuration"
      ∧ (t.outgoing discoveryRequest).URL
          ≠ (parseSimpleURL "http://idp-internal:8080/.well-known/openid-configuration").toOption :=
  ⟨⟨offlineTransport, "idp.example", "idp-internal:8080"⟩, rfl, rfl, rfl, by decide, by decide,
    by decide, by decide⟩

/-- C9 (amended): with the transport built by `initOIDC` from issuer
`https://idp.example/realm` and internal discovery URL `http://idp-internal:8080`
(issuerHost "idp.example", internalHost "idp-internal:8080"), a request to
`https://idp.example/realm/.well-known/openid-configuration` is delegated to the base
transport with the URL `https://idp-internal:8080/realm/.well-known/openid-configuration`
and the `Host` field `idp-internal:8080`: only the host is replaced, the scheme and the
path are kept. -/
theorem discovery_request_rewritten (urlParse : String → Except Err URL) (base : RoundTripper)
    (cfg : appConfig) (issuerURL internalURL : URL) (req : Request)
    (hissuer : cfg.Issuer = "https://idp.example/realm")
    (hinternal : cfg.DiscoveryInternal = "http://idp-internal:8080")
    (hpi : urlParse "https://idp.example/realm" = Except.ok issuerURL)
    (hhi : issuerURL.Host = "idp.example")
    (hpd : urlParse "http://idp-internal:8080" = Except.ok internalURL)
    (hhd : internalURL.Host = "idp-internal:8080")
    (hreq : req.URL
      = some ⟨"https", "idp.example", "/realm/.well-known/openid-configuration", "", ""⟩) :
    ∃ t, discoveryClient urlParse base cfg = Except.ok (some t)
      ∧ t.issuerHost = "idp.example" ∧ t.internalHost = "idp-internal:8080"
      ∧ req.URL.map URL.render
          = some "https://idp.example/realm/.well-known/openid-configuration"
      ∧ t.RoundTrip req = base (t.outgoing req)
      ∧ (t.outgoing req).URL
          = some ⟨"https", "idp-internal:8080", "/realm/.well-known/openid-configuration",
              "", ""⟩
      ∧ (t.outgoing req).URL.map URL.render
          = some "https://idp-internal:8080/realm/.well-known/openid-configuration"
      ∧ (t.outgoing req).Host = "idp-internal:8080" := by
  have hne : cfg.DiscoveryInternal ≠ "" := by rw [hinternal]; decide
  refine ⟨⟨base, issuerURL.Host, internalURL.Host⟩, ?_, hhi, hhd, ?_, rfl, ?_⟩
  · rw [discoveryClient, if_pos hne, hissuer, hinternal, hpi, hpd]
  · rw [hreq]; decide
  · have hg : internalURL.Host ≠ "" ∧ req.URL ≠ none
        ∧ req.URL.map URL.Host = some issuerURL.Host := by
      rw [hreq, hhi, hhd]
      decide
    have hout : (issuerRewriteTransport.mk base issuerURL.Host internalURL.Host).outgoing req
        = { req with
            URL := some ⟨"https", "idp-internal:8080",
              "/realm/.well-known/openid-configuration", "", ""⟩
            Host := "idp-internal:8080" } := by
      rw [outgoing_rewrite _ req hg, hreq]
      simp [hhd]
    rw [hout]
    refine ⟨rfl, ?_, rfl⟩
    show (some (URL.mk "https" "idp-internal:8080" "/realm/.well-known/openid-configuration"
      "" "")).map URL.render = _
    decide

/-- Witness of C9: the scenario with the parser of the examples. -/
theorem discovery_request_rewritten_witness :
    ∃ t, discoveryClient parseSimpleURL offlineTransport realmConfig = Except.ok (some t)
      ∧ (t.outgoing discoveryRequest).URL.map URL.render
          = some "https://idp-internal:8080/realm/.well-known/openid-configuration" :=
  (discovery_request_rewritten parseSimpleURL offlineTransport realmConfig
    ⟨"https", "idp.example", "/realm", "", ""⟩ ⟨"http", "idp-internal:8080", "", "", ""⟩
    discoveryRequest rfl rfl rfl rfl rfl rfl rfl).elim
    fun t h => ⟨t, h.1, h.2.2.2.2.2.2.1⟩

end GoApp
